import Mathlib

/-!
Verification of the rule-based legal-document analyzer
(`scripts/analisar_processo.py`, class `AnalisadorJuridico`).

Shallow embedding conventions:
* Python strings are embedded as `List Char` (`Str`); Python substring
  containment `a in b` is `pyIn`, `str.lower()` is `pyLower` (ASCII plus the
  uppercase accented letters used in the source's Portuguese literals),
  `str.strip()` is `pyStrip`, slicing `s[:n]` is `List.take`.
* The regex engine and the NLP models (spaCy, sentence-transformers) are
  external collaborators; each call site is modelled by an oracle function
  recorded in the `MotorRegex` / `Doc` / `ModeloEmbeddings` structures and the
  configured pattern store (`Padroes`) is a record of match functions, one per
  pattern category, mirroring the YAML-loaded `self.padroes`.  Hard-coded
  pattern lists from the source keep their arity (e.g. the two operative-clause
  patterns of `analisar_decisao`, the five patterns of
  `_extrair_orgao_julgador`).  All post-match logic (grouping, normalisation,
  classification, truncation, scoring, assembly) is embedded from the source.
* Python floats are embedded as `ℚ`; the confidence weights 0.25/0.20/0.15/0.10
  are exact decimals.
* `buscarCNJ` is a concrete executable implementation of the fallback
  case-number regex `(\d\x7b7\x7d[-.]?\d\x7b2\x7d[-.]?\d\x7b4\x7d[-.]?\d\x7b1\x7d[-.]?\d\x7b2\x7d[-.]?\d\x7b4\x7d)`
  from `_padroes_basicos` (leftmost match, greedy optional separators; greedy
  matching is exact here because the separator characters are not digits).
-/

abbrev Str := List Char

/-- Embedding of Python `sub in s` (substring containment): `comecaCom sub s`
is `s.startswith(sub)`. -/
def comecaCom : Str → Str → Bool
  | [], _ => true
  | _ :: _, [] => false
  | a :: as, b :: bs => a == b && comecaCom as bs

/-- Python `sub in s` for strings: some suffix of `s` starts with `sub`. -/
def pyIn (sub : Str) : Str → Bool
  | [] => comecaCom sub []
  | c :: rest => comecaCom sub (c :: rest) || pyIn sub rest

/-- Python `any(term in texto for term in termos)`. -/
def temTermo (texto : Str) (termos : List Str) : Bool :=
  termos.any (fun t => pyIn t texto)

/-- Lower-casing of one character: ASCII letters plus the uppercase accented
letters appearing in the source's Portuguese string literals (Python
`str.lower()` restricted to the alphabet the analyzer actually compares). -/
def minusculaChar (c : Char) : Char :=
  if 'A' ≤ c ∧ c ≤ 'Z' then Char.ofNat (c.toNat + 32)
  else if c = 'Á' then 'á' else if c = 'À' then 'à'
  else if c = 'Â' then 'â' else if c = 'Ã' then 'ã'
  else if c = 'É' then 'é' else if c = 'Ê' then 'ê'
  else if c = 'Í' then 'í' else if c = 'Ó' then 'ó'
  else if c = 'Ô' then 'ô' else if c = 'Õ' then 'õ'
  else if c = 'Ú' then 'ú' else if c = 'Ü' then 'ü'
  else if c = 'Ç' then 'ç' else c

/-- Embedding of Python `str.lower()`. -/
def pyLower (s : Str) : Str := s.map minusculaChar

/-- Whitespace stripped by Python `str.strip()`. -/
def espacoPy (c : Char) : Bool :=
  c = ' ' || c = '\t' || c = '\n' || c = '\r' || c = '\x0b' || c = '\x0c'

/-- Embedding of Python `str.strip()`. -/
def pyStrip (s : Str) : Str :=
  ((s.dropWhile espacoPy).reverse.dropWhile espacoPy).reverse

/-- Embedding of Python `sep.join(xs)`. -/
def pyJoin (sep : Str) (xs : List Str) : Str := List.intercalate sep xs

/-- Embedding of Python `texto.split(sep)` for a one-character separator
(keeps empty pieces, as Python does). -/
def pySplitAux (sep : Char) : Str → Str → List Str
  | [], acc => [acc.reverse]
  | c :: rest, acc =>
    if c = sep then acc.reverse :: pySplitAux sep rest []
    else pySplitAux sep rest (c :: acc)

/-- Python `texto.split(sep)`. -/
def pySplit (s : Str) (sep : Char) : List Str := pySplitAux sep s []

/-- Embedding of Python `x or default` for an optional string (`None` and the
empty string are falsy). -/
def pyOrStr (x : Option Str) (padrao : Str) : Str :=
  match x with
  | none => padrao
  | some s => if s.isEmpty then padrao else s

/-- Deterministic model of Python `list(set(xs))`: duplicates removed.  Within
one process Python's set iteration order is a fixed function of the inserted
contents; we model it by first-occurrence order. -/
def pySetAux : List Str → List Str → List Str
  | [], acc => acc.reverse
  | x :: rest, acc => if x ∈ acc then pySetAux rest acc else pySetAux rest (x :: acc)

/-- Python `list(set(xs))`, deterministically modelled. -/
def pySetList (l : List Str) : List Str := pySetAux l []

/-- Lexicographic order on embedded strings by code point, as Python `sorted`
compares strings. -/
def strLe : Str → Str → Bool
  | [], _ => true
  | _ :: _, [] => false
  | a :: as, b :: bs => if a = b then strLe as bs else decide (a.toNat < b.toNat)

/-- Insertion used by `pySorted`. -/
def inserirOrd (x : Str) : List Str → List Str
  | [] => [x]
  | y :: ys => if strLe x y then x :: y :: ys else y :: inserirOrd x ys

/-- Model of Python `sorted(xs)` for lists of strings (insertion sort; on the
duplicate-free lists the analyzer sorts, the ascending order is unique). -/
def pySorted : List Str → List Str
  | [] => []
  | x :: xs => inserirOrd x (pySorted xs)

/-- Python `Counter`-style occurrence count of `w` in `l`. -/
def contarOcorrencias (w : Str) (l : List Str) : Nat :=
  (l.filter (fun x => x = w)).length

/-! ## Data model (the `@dataclass`es of the source) -/

/-- Dataclass `PartesProcesso`. -/
structure PartesProcesso where
  autores : List Str
  reus : List Str
  terceiros : List Str
  advogados : List Str
deriving DecidableEq

/-- Dataclass `InformacoesProcessuais`. -/
structure InformacoesProcessuais where
  numero_processo : Str
  tipo_acao : List Str
  orgao_julgador : Str
  instancia : Str
  data_distribuicao : Option Str
  valor_causa : Option Str
deriving DecidableEq

/-- Dataclass `DecisaoJudicial`. -/
structure DecisaoJudicial where
  tipo_decisao : Str
  resultado : Str
  dispositivo : Str
  fundamentacao_resumida : Str
  data_decisao : Option Str
deriving DecidableEq

/-- Dataclass `AnaliseProcesso` (confidence embedded as `ℚ`). -/
structure AnaliseProcesso where
  informacoes_processuais : InformacoesProcessuais
  partes : PartesProcesso
  decisao : Option DecisaoJudicial
  resumo_executivo : Str
  palavras_chave : List Str
  confianca_analise : ℚ
deriving DecidableEq

/-! ## Oracles for the external collaborators -/

/-- One `re.finditer` hit of a party pattern: `g0` is `match.group(0)` and
`g1` is `match.group(1)` when the pattern has a capture group
(`match.groups()` non-empty), else `none`. -/
structure PartesMatch where
  g0 : Str
  g1 : Option Str
deriving DecidableEq

/-- One `re.findall` result of an attorney pattern: a plain string for a
0/1-group pattern, a tuple of group captures otherwise. -/
inductive AdvMatch where
  | single (s : Str)
  | tupla (elems : List Str)
deriving DecidableEq

/-- One pattern of the `CUSTAS_SUCUMBENCIA` category: the source inspects the
regex source text (`'custas' in padrao.lower()` …), so the model carries it
(`fonte`) next to the match oracle (`busca`, returning `(group(1)?, group(0))`
of the first hit). -/
structure CustasPadrao where
  fonte : Str
  busca : Str → Option (Option Str × Str)

/-- The configured pattern store `self.padroes` (YAML-loaded, category by
category).  Each configured regex is modelled by its match oracle:
`numero_processo` patterns return the first hit's relevant group
(`group(1) if match.groups() else group(0)`), `tipo_acao` patterns return all
`findall` hits, `partes_processo` patterns return all `finditer` hits,
`advogados_procuradores` patterns return all `findall` hits,
`valores_monetarios` patterns return the first hit as `(group(1)?, group(0))`. -/
structure Padroes where
  numero_processo : List (Str → Option Str)
  tipo_acao : List (Str → List Str)
  partes_processo : List (Str → List PartesMatch)
  advogados_procuradores : List (Str → List AdvMatch)
  valores_monetarios : List (Str → Option (Option Str × Str))
  custas_sucumbencia : List CustasPadrao

/-- A spaCy named entity (`ent.label_`, `ent.text`) together with the lowered
10-token context window `contexto_antes + " " + contexto_depois` the source
computes around it. -/
structure NEnt where
  label : Str
  text : Str
  contexto_completo : Str
deriving DecidableEq

/-- A spaCy token as the keyword extractor reads it (`lemma_`, `pos_`,
`is_alpha`). -/
structure TokenDoc where
  lemma_ : Str
  pos : Str
  is_alpha : Bool
deriving DecidableEq

/-- A processed spaCy document: its entities and tokens. -/
structure Doc where
  ents : List NEnt
  tokens : List TokenDoc

/-- Match oracles for the regexes hard-coded in the source, one field per
pattern, in source order.  `Option Str` fields return `group(1)` of the first
`re.search` hit; `List Str` fields return the `re.findall` list.
`orgao1`..`orgao5` are the five `padroes_orgao` patterns,
`dataDistr1`/`dataDistr2` the two `_extrair_data_distribuicao` patterns,
`disp1`/`disp2` the two `padroes_dispositivo` patterns
(`(?i)(?:dispositivo|decido|julgo|determino)[:\s]([^.]+\.)` and
`(?i)(?:pelo\s+exposto|ante\s+o\s+exposto|isso\s+posto)[^.]*\.([^.]+\.)`),
`fund1`/`fund2` the two `padroes_fundamentacao` patterns, and
`dataDec1`..`dataDec3` the three `padroes_data_decisao` patterns. -/
structure MotorRegex where
  orgao1 : Str → Option Str
  orgao2 : Str → Option Str
  orgao3 : Str → Option Str
  orgao4 : Str → Option Str
  orgao5 : Str → Option Str
  dataDistr1 : Str → Option Str
  dataDistr2 : Str → Option Str
  disp1 : Str → Option Str
  disp2 : Str → Option Str
  fund1 : Str → Option Str
  fund2 : Str → Option Str
  dataDec1 : Str → List Str
  dataDec2 : Str → List Str
  dataDec3 : Str → List Str

/-- The sentence-transformers model: `argsortTop` abstracts
`np.argsort(similaridades)[-2:]` over the eligible paragraphs and `falha`
models the `except` branch of the semantic extraction. -/
structure ModeloEmbeddings where
  falha : Bool
  argsortTop : List Str → List Nat

/-- The analyzer object `AnalisadorJuridico` after `__init__`: pattern store,
legal-area keyword sets (`self.tipos_processuais`, name with keyword list),
spaCy pipeline, regex engine and the optional embeddings model
(`None` when loading failed). -/
structure Analisador where
  padroes : Padroes
  tipos_processuais : List (Str × List Str)
  nlp : Str → Doc
  re : MotorRegex
  modelo_embeddings : Option ModeloEmbeddings

/-! ## Concrete fallback case-number pattern (`_padroes_basicos`) -/

/-- Match exactly `n` digit characters at the head; return them and the rest. -/
def pegarDigitos (n : Nat) (s : Str) : Option (Str × Str) :=
  let pre := s.take n
  if pre.length = n ∧ pre.all Char.isDigit then some (pre, s.drop n) else none

/-- Greedily match the optional separator `[-.]?` at the head. -/
def pegarSepOpcional (s : Str) : Str × Str :=
  match s with
  | c :: rest => if c = '-' ∨ c = '.' then ([c], rest) else ([], s)
  | [] => ([], [])

/-- Match the fallback CNJ case-number regex anchored at the head of `s`,
returning the matched text. -/
def casarCNJEm (s : Str) : Option Str := do
  let (d1, r) ← pegarDigitos 7 s
  let (s1, r) := pegarSepOpcional r
  let (d2, r) ← pegarDigitos 2 r
  let (s2, r) := pegarSepOpcional r
  let (d3, r) ← pegarDigitos 4 r
  let (s3, r) := pegarSepOpcional r
  let (d4, r) ← pegarDigitos 1 r
  let (s4, r) := pegarSepOpcional r
  let (d5, r) ← pegarDigitos 2 r
  let (s5, r) := pegarSepOpcional r
  let (d6, _) ← pegarDigitos 4 r
  pure (d1 ++ s1 ++ d2 ++ s2 ++ d3 ++ s3 ++ d4 ++ s4 ++ d5 ++ s5 ++ d6)

/-- `re.search` of the fallback CNJ pattern: leftmost hit wins. -/
def buscarCNJ : Str → Option Str
  | [] => none
  | s@(_ :: rest) =>
    match casarCNJEm s with
    | some m => some m
    | none => buscarCNJ rest

/-- The `NUMERO_PROCESSO` category of `_padroes_basicos` as match oracles. -/
def padroesNumeroBasicos : List (Str → Option Str) := [buscarCNJ]

/-! ## Procedural info extractor -/

/-- The f-string reformatting of a 20-digit cleaned number into
`NNNNNNN-DD.AAAA.D.RR.OOOO` (`numero_limpo[:7]`, `[7:9]`, `[9:13]`, `[13]`,
`[14:16]`, `[16:]`). -/
def formatCNJ (d : Str) : Str :=
  d.take 7 ++ ['-'] ++ (d.drop 7).take 2 ++ ['.'] ++ (d.drop 9).take 4 ++ ['.']
    ++ (d.drop 13).take 1 ++ ['.'] ++ (d.drop 14).take 2 ++ ['.'] ++ d.drop 16

/-- Method `extrair_numero_processo`: first configured pattern that matches
wins; the hit is stripped of non-digits and reformatted when exactly 20 digits
remain, else returned raw; `None` when nothing matches. -/
def extrair_numero_processo : List (Str → Option Str) → Str → Option Str
  | [], _ => none
  | p :: rest, texto =>
    match p texto with
    | some numero =>
      let numero_limpo := numero.filter Char.isDigit
      if numero_limpo.length = 20 then some (formatCNJ numero_limpo) else some numero
    | none => extrair_numero_processo rest texto

/-- The first configured pattern's hit, ignoring normalisation (helper used to
state which raw text the loop of `extrair_numero_processo` matched). -/
def primeiroCasamento : List (Str → Option Str) → Str → Option Str
  | [], _ => none
  | p :: rest, texto =>
    match p texto with
    | some numero => some numero
    | none => primeiroCasamento rest texto

/-- Method `identificar_tipo_acao`: regex hits of the `TIPO_ACAO` category
plus every legal area among CIVEL/PENAL/TRABALHISTA/ADMINISTRATIVO scoring at
least two keywords, deduplicated; sentinel when empty. -/
def identificar_tipo_acao (an : Analisador) (texto : Str) : List Str :=
  let texto_lower := pyLower texto
  let tipos1 := (an.padroes.tipo_acao.map (fun p => p texto)).flatten
  let areas := an.tipos_processuais.filter
    (fun ac => ac.1 ∈ ["CIVEL".data, "PENAL".data, "TRABALHISTA".data, "ADMINISTRATIVO".data])
  let tipos2 := (areas.filter
      (fun ac => 2 ≤ (ac.2.filter (fun kw => pyIn kw texto_lower)).length)).map
    (fun ac => "Processo ".data ++ pyLower ac.1)
  let tipos_encontrados := tipos1 ++ tipos2
  if tipos_encontrados.isEmpty then ["Tipo não identificado".data]
  else pySetList tipos_encontrados

/-- First `some` in a list of attempted matches (first-pattern-wins loop). -/
def primeiroAlgum : List (Option Str) → Option Str
  | [] => none
  | some x :: _ => some x
  | none :: rest => primeiroAlgum rest

/-- Method `_extrair_orgao_julgador`: the five hard-coded court patterns in
order, first hit's `group(1).strip()`, else the sentinel. -/
def extrairOrgaoJulgador (re : MotorRegex) (texto : Str) : Str :=
  match primeiroAlgum
      [re.orgao1 texto, re.orgao2 texto, re.orgao3 texto, re.orgao4 texto, re.orgao5 texto] with
  | some m => pyStrip m
  | none => "Órgão não identificado".data

/-- Method `_identificar_instancia`: keyword-presence cascade over the lowered
text, most specific tier first. -/
def identificarInstancia (texto : Str) : Str :=
  let texto_lower := pyLower texto
  if temTermo texto_lower ["supremo tribunal federal".data, "stf".data] then
    "Supremo Tribunal Federal".data
  else if temTermo texto_lower ["superior tribunal de justiça".data, "stj".data] then
    "Superior Tribunal de Justiça".data
  else if temTermo texto_lower ["tribunal".data, "desembargador".data, "apelação".data] then
    "Segunda instância".data
  else if temTermo texto_lower ["vara".data, "juiz de direito".data, "juíza de direito".data] then
    "Primeira instância".data
  else "Instância não identificada".data

/-- Method `_extrair_data_distribuicao`: two hard-coded date patterns,
first hit's `group(1)`. -/
def extrairDataDistribuicao (re : MotorRegex) (texto : Str) : Option Str :=
  primeiroAlgum [re.dataDistr1 texto, re.dataDistr2 texto]

/-- Method `_extrair_valor_causa`: first configured monetary pattern that
matches; `R$ `-prefixed `group(1)` when the pattern has groups, else
`group(0)`. -/
def extrairValorCausa : List (Str → Option (Option Str × Str)) → Str → Option Str
  | [], _ => none
  | p :: rest, texto =>
    match p texto with
    | some (some g1, _) => some ("R$ ".data ++ g1)
    | some (none, g0) => some g0
    | none => extrairValorCausa rest texto

/-- Method `extrair_informacoes_processuais`: assembles the procedural record;
the case-number field substitutes the sentinel for a falsy result
(`self.extrair_numero_processo(texto) or "Não identificado"`). -/
def extrair_informacoes_processuais (an : Analisador) (texto : Str) : InformacoesProcessuais :=
  { numero_processo :=
      pyOrStr (extrair_numero_processo an.padroes.numero_processo texto) "Não identificado".data
    tipo_acao := identificar_tipo_acao an texto
    orgao_julgador := extrairOrgaoJulgador an.re texto
    instancia := identificarInstancia texto
    data_distribuicao := extrairDataDistribuicao an.re texto
    valor_causa := extrairValorCausa an.padroes.valores_monetarios texto }

/-! ## Party extractor -/

/-- The three role lists the party loops grow. -/
structure TresListas where
  autores : List Str
  reus : List Str
  terceiros : List Str
deriving DecidableEq

/-- One iteration of the party-pattern loop body: matches without a capture
group are skipped; the full matched span (lowered) is scanned for role
markers, first marker set wins, and the captured name is appended to that role
list when not already present (exact string compare). -/
def passoPartes (m : PartesMatch) (st : TresListas) : TresListas :=
  match m.g1 with
  | none => st
  | some g1 =>
    let parte := pyStrip g1
    let contexto := pyLower m.g0
    if temTermo contexto ["autor".data, "requerente".data, "impetrante".data] then
      if parte ∈ st.autores then st else { st with autores := st.autores ++ [parte] }
    else if temTermo contexto ["réu".data, "requerido".data, "impetrado".data] then
      if parte ∈ st.reus then st else { st with reus := st.reus ++ [parte] }
    else if temTermo contexto ["terceiro".data, "assistente".data] then
      if parte ∈ st.terceiros then st else { st with terceiros := st.terceiros ++ [parte] }
    else st

/-- The nested pattern/match loop over all party-pattern hits. -/
def classificarPartes : List PartesMatch → TresListas → TresListas
  | [], st => st
  | m :: rest, st => classificarPartes rest (passoPartes m st)

/-- `advogado = match[0] if match[0] else match[1] if len(match) > 1 else ""`
for a tuple hit, the hit itself otherwise. -/
def valorAdvogado : AdvMatch → Str
  | .single s => s
  | .tupla es =>
    if ¬(es.getD 0 []).isEmpty then es.getD 0 []
    else if 1 < es.length then es.getD 1 [] else []

/-- The attorney-pattern loop: keep stripped candidates longer than 5
characters, in discovery order. -/
def coletarAdvogados : List AdvMatch → List Str → List Str
  | [], acc => acc
  | m :: rest, acc =>
    let advogado := valorAdvogado m
    if advogado ≠ [] ∧ 5 < advogado.length then
      coletarAdvogados rest (acc ++ [pyStrip advogado])
    else coletarAdvogados rest acc

/-- One iteration of the spaCy-entity loop: person entities longer than 5
characters, not yet present in any of the four lists, classified by the role
markers in their token context window; unmatched entities are discarded. -/
def nerPasso (advogados : List Str) (e : NEnt) (st : TresListas) : TresListas :=
  if e.label = "PER".data ∧ 5 < e.text.length then
    let nome := pyStrip e.text
    if nome ∉ st.autores ∧ nome ∉ st.reus ∧ nome ∉ st.terceiros ∧ nome ∉ advogados then
      if temTermo e.contexto_completo ["autor".data, "requerente".data] then
        { st with autores := st.autores ++ [nome] }
      else if temTermo e.contexto_completo ["réu".data, "requerido".data] then
        { st with reus := st.reus ++ [nome] }
      else st
    else st
  else st

/-- The spaCy-entity loop over `doc.ents`. -/
def nerLoop (advogados : List Str) : List NEnt → TresListas → TresListas
  | [], st => st
  | e :: rest, st => nerLoop advogados rest (nerPasso advogados e st)

/-- Method `extrair_partes_processo`: party-pattern scan over the full text,
attorney scan, then NER over the first 50,000 characters; each list truncated
to its cap, attorneys deduplicated before truncation. -/
def extrair_partes_processo (an : Analisador) (texto : Str) : PartesProcesso :=
  let doc := an.nlp (texto.take 50000)
  let matchesPartes := (an.padroes.partes_processo.map (fun p => p texto)).flatten
  let st := classificarPartes matchesPartes ⟨[], [], []⟩
  let advMatches := (an.padroes.advogados_procuradores.map (fun p => p texto)).flatten
  let advogados := coletarAdvogados advMatches []
  let st2 := nerLoop advogados doc.ents st
  { autores := st2.autores.take 5
    reus := st2.reus.take 5
    terceiros := st2.terceiros.take 3
    advogados := (pySetList advogados).take 10 }

/-! ## Decision analyzer -/

/-- The operative-clause loop of `analisar_decisao`: `dispositivo` starts
empty; the first of the two hard-coded patterns that matches sets it to
`group(1)` and breaks. -/
def primeiroDispositivo (re : MotorRegex) (texto : Str) : Str :=
  match re.disp1 texto with
  | some g => g
  | none =>
    match re.disp2 texto with
    | some g => g
    | none => []

/-- Method `_classificar_tipo_decisao`: keyword cascade over the lowered full
text. -/
def classificarTipoDecisao (texto : Str) : Str :=
  let texto_lower := pyLower texto
  if pyIn ("sentença".data) texto_lower then "Sentença".data
  else if pyIn ("acórdão".data) texto_lower then "Acórdão".data
  else if temTermo texto_lower ["decisão interlocutória".data, "defiro".data, "indefiro".data] then
    "Decisão interlocutória".data
  else if pyIn ("despacho".data) texto_lower then "Despacho".data
  else "Decisão não classificada".data

/-- Method `_determinar_resultado_decisao`: substring cascade over the lowered
operative clause (`dispositivo_lower = dispositivo.lower()`), in source
order. -/
def determinarResultadoDecisao (dispositivo : Str) : Str :=
  if pyIn ("procedente".data) (pyLower dispositivo)
      ∧ ¬pyIn ("improcedente".data) (pyLower dispositivo) then
    "Procedente".data
  else if pyIn ("improcedente".data) (pyLower dispositivo) then "Improcedente".data
  else if pyIn ("parcialmente procedente".data) (pyLower dispositivo) then
    "Parcialmente procedente".data
  else if temTermo (pyLower dispositivo) ["defiro".data, "concedo".data] then "Deferido".data
  else if temTermo (pyLower dispositivo) ["indefiro".data, "denego".data] then
    "Indeferido".data
  else if pyIn ("extinto".data) (pyLower dispositivo) then "Processo extinto".data
  else "Resultado não determinado".data

/-- Method `_extrair_fundamentacao_semantica`: sentinel when the embeddings
model is absent or raises; paragraphs are the newline splits whose stripped
text exceeds 50 characters; needs at least 3 of them; joins the two paragraphs
ranked most similar to the reference phrases and truncates past 300
characters with an ellipsis. -/
def extrairFundamentacaoSemantica (an : Analisador) (texto : Str) : Str :=
  match an.modelo_embeddings with
  | none => "Fundamentação não disponível (modelo não carregado)".data
  | some modelo =>
    if modelo.falha then "Erro na extração semântica da fundamentação".data
    else
      let paragrafos := ((pySplit texto '\n').map pyStrip).filter (fun p => 50 < p.length)
      if paragrafos.length < 3 then "Texto insuficiente para análise semântica".data
      else
        let indices_top := modelo.argsortTop paragrafos
        let fundamentacao := pyJoin (" ".data) (indices_top.map (fun i => paragrafos.getD i []))
        if 300 < fundamentacao.length then fundamentacao.take 300 ++ "...".data
        else fundamentacao

/-- Method `_extrair_fundamentacao_resumida`: the two hard-coded rationale
patterns in order; on a hit, trim and truncate past 300 characters with an
ellipsis; on a miss, fall back to the semantic extraction. -/
def extrairFundamentacaoResumida (an : Analisador) (texto : Str) : Str :=
  match primeiroAlgum [an.re.fund1 texto, an.re.fund2 texto] with
  | some fundamentacao =>
    if 300 < fundamentacao.length then (pyStrip fundamentacao).take 300 ++ "...".data
    else pyStrip fundamentacao
  | none => extrairFundamentacaoSemantica an texto

/-- First non-empty `findall` list's last element (the decision-date loop
returns `matches[-1]`). -/
def primeiroNaoVazioUltimo : List (List Str) → Option Str
  | [] => none
  | l :: rest => if l.isEmpty then primeiroNaoVazioUltimo rest else l.getLast?

/-- Method `_extrair_data_decisao`: three hard-coded date-pattern families in
order; the first family with hits contributes its last hit. -/
def extrairDataDecisao (re : MotorRegex) (texto : Str) : Option Str :=
  primeiroNaoVazioUltimo [re.dataDec1 texto, re.dataDec2 texto, re.dataDec3 texto]

/-- Method `analisar_decisao`: locate the operative clause; when it is empty
return nothing at all, else build the full decision record. -/
def analisar_decisao (an : Analisador) (texto : Str) : Option DecisaoJudicial :=
  let dispositivo := primeiroDispositivo an.re texto
  if dispositivo.isEmpty then none
  else some
    { tipo_decisao := classificarTipoDecisao texto
      resultado := determinarResultadoDecisao dispositivo
      dispositivo := pyStrip dispositivo
      fundamentacao_resumida := extrairFundamentacaoResumida an texto
      data_decisao := extrairDataDecisao an.re texto }

/-! ## Costs and fees, executive summary -/

/-- Result dict of `extrair_custas_honorarios`. -/
structure CustasInfo where
  custas_processuais : Option Str
  honorarios_advocaticios : Option Str
  sucumbencia : Option Str
  gratuidade_justica : Bool
deriving DecidableEq

/-- One iteration of the `CUSTAS_SUCUMBENCIA` loop: on a hit, the field chosen
by inspecting the pattern's own source text is overwritten
(`group(1) if match.groups() else group(0)`); no break, later patterns win. -/
def custasPasso (texto : Str) (r : CustasInfo) (p : CustasPadrao) : CustasInfo :=
  match p.busca texto with
  | none => r
  | some (g1, g0) =>
    let valor := match g1 with | some v => v | none => g0
    let fonte_lower := pyLower p.fonte
    if pyIn ("custas".data) fonte_lower then { r with custas_processuais := some valor }
    else if pyIn ("honorários".data) fonte_lower then
      { r with honorarios_advocaticios := some valor }
    else if pyIn ("sucumbência".data) fonte_lower then { r with sucumbencia := some valor }
    else if pyIn ("gratuidade".data) fonte_lower then { r with gratuidade_justica := true }
    else r

/-- Method `extrair_custas_honorarios`. -/
def extrair_custas_honorarios (an : Analisador) (texto : Str) : CustasInfo :=
  an.padroes.custas_sucumbencia.foldl (custasPasso texto) ⟨none, none, none, false⟩

/-- Method `gerar_resumo_executivo`: the pipe-delimited one-line summary plus
trailing observations. -/
def gerar_resumo_executivo (an : Analisador) (informacoes : InformacoesProcessuais)
    (partes : PartesProcesso) (decisao : Option DecisaoJudicial)
    (texto_completo : Str) : Str :=
  let base := ["PROCESSO: ".data ++ informacoes.numero_processo,
               "TIPO: ".data ++ pyJoin (", ".data) informacoes.tipo_acao,
               "ÓRGÃO: ".data ++ informacoes.orgao_julgador,
               "INSTÂNCIA: ".data ++ informacoes.instancia]
  let parts1 := base ++
    (if partes.autores.isEmpty then []
     else ["AUTOR(ES): ".data ++ pyJoin (", ".data) (partes.autores.take 2)])
  let parts2 := parts1 ++
    (if partes.reus.isEmpty then []
     else ["RÉU(S): ".data ++ pyJoin (", ".data) (partes.reus.take 2)])
  let parts3 := parts2 ++
    (match informacoes.valor_causa with
     | some v => ["VALOR: ".data ++ v]
     | none => [])
  let parts4 := parts3 ++
    (match decisao with
     | some d =>
       ["DECISÃO: ".data ++ d.tipo_decisao ++ " - ".data ++ d.resultado] ++
         (match d.data_decisao with
          | some dt => ["DATA DECISÃO: ".data ++ dt]
          | none => [])
     | none => [])
  let custas_info := extrair_custas_honorarios an texto_completo
  let parts5 := parts4 ++
    (match custas_info.honorarios_advocaticios with
     | some h => ["HONORÁRIOS: ".data ++ h]
     | none => [])
  let resumo := pyJoin (" | ".data) parts5
  let observacoes :=
    (if custas_info.gratuidade_justica then ["Beneficiário da gratuidade da justiça".data]
     else []) ++
    (match decisao with
     | some d =>
       if pyIn ("procedente".data) (pyLower d.resultado) then ["Decisão favorável ao autor".data]
       else if pyIn ("improcedente".data) (pyLower d.resultado) then
         ["Decisão favorável ao réu".data]
       else []
     | none => [])
  if observacoes.isEmpty then resumo
  else resumo ++ " | OBSERVAÇÕES: ".data ++ pyJoin ("; ".data) observacoes

/-! ## Keyword extractor -/

/-- The fixed `termos_juridicos` list of `extrair_palavras_chave`. -/
def termos_juridicos : List Str :=
  ["direito".data, "lei".data, "artigo".data, "código".data, "norma".data,
   "jurisprudência".data, "precedente".data, "súmula".data, "constituição".data,
   "processual".data, "civil".data, "penal".data, "trabalhista".data,
   "administrativo".data, "tributário".data]

/-- Method `extrair_palavras_chave`: named entities, frequent noun lemmas
(document frequency at least 2, first ten in first-seen order), fixed legal
terms present in the text and legal areas scoring at least one keyword;
deduplicated, sorted, capped at 15. -/
def extrair_palavras_chave (an : Analisador) (texto : Str) : List Str :=
  let doc := an.nlp (texto.take 10000)
  let palavras1 := (doc.ents.filter
      (fun e => e.label ∈ ["PER".data, "ORG".data, "LOC".data] ∧ 3 < e.text.length)).map
    (fun e => pyLower e.text)
  let substantivos := (doc.tokens.filter
      (fun t => t.pos = "NOUN".data ∧ 4 < t.lemma_.length ∧ t.is_alpha)).map
    (fun t => pyLower t.lemma_)
  let palavras_importantes :=
    ((pySetList substantivos).filter (fun w => 2 ≤ contarOcorrencias w substantivos)).take 10
  let palavras3 := termos_juridicos.filter (fun termo => pyIn termo (pyLower texto))
  let palavras4 := (an.tipos_processuais.filter
      (fun ac => 1 ≤ (ac.2.filter (fun kw => pyIn kw (pyLower texto))).length)).map
    (fun ac => pyLower ac.1)
  (pySorted (pySetList (palavras1 ++ palavras_importantes ++ palavras3 ++ palavras4))).take 15

/-! ## Confidence scorer -/

/-- The fixed `palavras_juridicas` list of the text-quality signal. -/
def palavras_juridicas : List Str :=
  ["processo".data, "sentença".data, "decisão".data, "autor".data, "réu".data,
   "direito".data, "lei".data]

/-- Characters Python's `\b`-delimited word matching treats as word
characters (letters, digits, underscore; accented letters are word characters
under Unicode matching). -/
def letraPalavra (c : Char) : Bool :=
  c.isAlphanum || c == '_' ||
    c ∈ ['á', 'à', 'â', 'ã', 'é', 'ê', 'í', 'ó', 'ô', 'õ', 'ú', 'ü', 'ç',
         'Á', 'À', 'Â', 'Ã', 'É', 'Ê', 'Í', 'Ó', 'Ô', 'Õ', 'Ú', 'Ü', 'Ç']

/-- Case-insensitive anchored match of `palavra` at the head of `s` with a
trailing word boundary. -/
def casaPalavraEm (palavra s : Str) : Bool :=
  pyLower (s.take palavra.length) == pyLower palavra &&
    (let resto := s.drop palavra.length
     resto.isEmpty || !letraPalavra (resto.headD ' '))

/-- Scan for a `\b palavra \b` hit, tracking the preceding character for the
leading word boundary. -/
def buscaPalavraAux (palavra : Str) (anterior : Option Char) : Str → Bool
  | [] => false
  | c :: rest =>
    ((match anterior with
      | none => true
      | some a => !letraPalavra a) && casaPalavraEm palavra (c :: rest))
    || buscaPalavraAux palavra (some c) rest

/-- Embedding of `re.search(r'\b' + palavra + r'\b', texto, re.IGNORECASE)`
viewed as a Boolean hit test (the seven searched words are non-empty and made
of word characters). -/
def buscaPalavraInteira (palavra texto : Str) : Bool :=
  buscaPalavraAux palavra none texto

/-- The text-quality count: how many of the seven fixed legal words occur as
whole words. -/
def contarPalavrasJuridicas (texto : Str) : Nat :=
  (palavras_juridicas.filter (fun palavra => buscaPalavraInteira palavra texto)).length

/-- Confidence component 1, case number found (weight 0.25). -/
def confNumero (informacoes : InformacoesProcessuais) : ℚ :=
  if informacoes.numero_processo ≠ "Não identificado".data then 0.25 else 0.0

/-- Confidence component 2, parties found (0.20 / 0.10 / 0). -/
def confPartes (partes : PartesProcesso) : ℚ :=
  if 2 ≤ partes.autores.length + partes.reus.length then 0.20
  else if 1 ≤ partes.autores.length + partes.reus.length then 0.10
  else 0.0

/-- Confidence component 3, action type identified (weight 0.15); the Python
truthiness test `informacoes.tipo_acao and informacoes.tipo_acao[0] != …`. -/
def confTipo (informacoes : InformacoesProcessuais) : ℚ :=
  match informacoes.tipo_acao with
  | [] => 0.0
  | t :: _ => if t ≠ "Tipo não identificado".data then 0.15 else 0.0

/-- Confidence component 4, deciding body found (weight 0.10). -/
def confOrgao (informacoes : InformacoesProcessuais) : ℚ :=
  if informacoes.orgao_julgador ≠ "Órgão não identificado".data then 0.10 else 0.0

/-- Confidence component 5, text quality:
`min(palavras_encontradas / len(palavras_juridicas), 1.0) * 0.15`. -/
def confTexto (texto_completo : Str) : ℚ :=
  min ((contarPalavrasJuridicas texto_completo : ℚ) / (palavras_juridicas.length : ℚ)) 1.0
    * 0.15

/-- Confidence component 6, decision-presence terms (weight 0.15). -/
def confDecisao (texto_completo : Str) : ℚ :=
  if temTermo (pyLower texto_completo)
      ["julgo".data, "decido".data, "sentença".data, "dispositivo".data] then 0.15
  else 0.0

/-- Method `calcular_confianca_analise`: the six appended score components
summed and defensively capped at 1.0. -/
def calcular_confianca_analise (informacoes : InformacoesProcessuais)
    (partes : PartesProcesso) (texto_completo : Str) : ℚ :=
  min (confNumero informacoes + confPartes partes + confTipo informacoes
        + confOrgao informacoes + confTexto texto_completo + confDecisao texto_completo)
    1.0

/-! ## Full pipeline -/

/-- Method `analisar_processo_completo`: the fixed sequence of extraction
stages combined into one `AnaliseProcesso` record. -/
def analisar_processo_completo (an : Analisador) (texto_documento : Str) : AnaliseProcesso :=
  let informacoes := extrair_informacoes_processuais an texto_documento
  let partes := extrair_partes_processo an texto_documento
  let decisao := analisar_decisao an texto_documento
  let palavras_chave := extrair_palavras_chave an texto_documento
  let resumo := gerar_resumo_executivo an informacoes partes decisao texto_documento
  let confianca := calcular_confianca_analise informacoes partes texto_documento
  { informacoes_processuais := informacoes
    partes := partes
    decisao := decisao
    resumo_executivo := resumo
    palavras_chave := palavras_chave
    confianca_analise := confianca }

/-- One full analysis call including the analyzer object threaded through
explicitly: the source methods only read `self` (pattern store and models are
written once in `__init__` and never during analysis), so the returned state
is the input state. -/
def runAnalise (an : Analisador) (texto : Str) : AnaliseProcesso × Analisador :=
  (analisar_processo_completo an texto, an)

/-! ## Concrete fixtures for witnesses and counterexamples -/

/-- A regex engine that never matches. -/
def motorVazio : MotorRegex :=
  { orgao1 := fun _ => none, orgao2 := fun _ => none, orgao3 := fun _ => none
    orgao4 := fun _ => none, orgao5 := fun _ => none
    dataDistr1 := fun _ => none, dataDistr2 := fun _ => none
    disp1 := fun _ => none, disp2 := fun _ => none
    fund1 := fun _ => none, fund2 := fun _ => none
    dataDec1 := fun _ => [], dataDec2 := fun _ => [], dataDec3 := fun _ => [] }

/-- An empty pattern store. -/
def padroesVazios : Padroes := ⟨[], [], [], [], [], []⟩

/-- An analyzer with empty configuration and silent collaborators. -/
def analisadorBase : Analisador :=
  { padroes := padroesVazios
    tipos_processuais := []
    nlp := fun _ => ⟨[], []⟩
    re := motorVazio
    modelo_embeddings := none }

/-- The CNJ dot/dash shape `NNNNNNN-DD.AAAA.D.RR.OOOO` stated from the
specification: twenty-five characters, a dash after the first seven digits,
dots separating the later digit groups, digits everywhere else.  (Spec-side
definition, used to compare the code's reformatted output against the
documented format.) -/
def isCNJFormat (s : Str) : Bool :=
  match s with
  | [a0, a1, a2, a3, a4, a5, a6, b0, a7, a8, b1, a9, a10, a11, a12, b2, a13, b3,
     a14, a15, b4, a16, a17, a18, a19] =>
    b0 == '-' && b1 == '.' && b2 == '.' && b3 == '.' && b4 == '.' &&
      [a0, a1, a2, a3, a4, a5, a6, a7, a8, a9, a10, a11, a12, a13, a14, a15, a16,
       a17, a18, a19].all Char.isDigit
  | _ => false

/-- Concrete input for the case-number scenarios: a document mentioning one
CNJ-formatted case number. -/
def textoNumero : Str := "Distribuido o processo 1234567-12.2020.1.01.0001 na vara.".data

/-- Concrete input without any case-number hit. -/
def textoSemNumero : Str := "sem numero processual aqui".data

/-- Analyzer whose store holds only the fallback case-number pattern. -/
def analisadorNumero : Analisador :=
  { analisadorBase with
    padroes := { padroesVazios with numero_processo := padroesNumeroBasicos } }

/-- Operative clause and rationale fixture: the engine fields return exactly
the captures the two source regexes produce on `textoFundLonga`
(`disp1` captures `procedente o pedido.` after `julgo`, `fund1` greedily
captures the 400 non-dot characters after `fundamentação:`). -/
def textoFundLonga : Str :=
  "julgo procedente o pedido. fundamentação:".data ++ List.replicate 400 'a' ++ ".".data

/-- Analyzer for the rationale-length scenario. -/
def analisadorFundLonga : Analisador :=
  { analisadorBase with
    re := { motorVazio with
            disp1 := fun _ => some ("procedente o pedido.".data)
            fund1 := fun _ => some (List.replicate 400 'a') } }

/-- Party-pattern fixture: two hits of one configured party pattern whose
captured names differ only in letter case, as produced on `textoPartesCaso`. -/
def analisadorPartesCaso : Analisador :=
  { analisadorBase with
    padroes := { padroesVazios with
                 partes_processo :=
                   [fun _ =>
                     [⟨"Autor: Ana Maria Souza".data, some ("Ana Maria Souza".data)⟩,
                      ⟨"Autor: ANA MARIA SOUZA".data, some ("ANA MARIA SOUZA".data)⟩]] } }

/-- The text the two party hits of `analisadorPartesCaso` come from. -/
def textoPartesCaso : Str := "Autor: Ana Maria Souza. Autor: ANA MARIA SOUZA.".data

/-- The decision record `analisar_decisao` produces on `analisadorFundLonga`
and `textoFundLonga` (401-character rationale source, truncated to 300
characters plus the ellipsis). -/
def decisaoFundLonga : DecisaoJudicial :=
  { tipo_decisao := "Decisão não classificada".data
    resultado := "Procedente".data
    dispositivo := "procedente o pedido.".data
    fundamentacao_resumida := List.replicate 300 'a' ++ "...".data
    data_decisao := none }

/-! ## Substring containment lemmas -/

theorem comecaCom_iff (sub s : Str) : comecaCom sub s = true ↔ ∃ t, s = sub ++ t := by
  induction sub generalizing s with
  | nil =>
    simp [comecaCom]
  | cons a as ih =>
    cases s with
    | nil => simp [comecaCom]
    | cons b bs =>
      show (a == b && comecaCom as bs) = true ↔ _
      rw [Bool.and_eq_true, beq_iff_eq, ih]
      constructor
      · rintro ⟨rfl, t, rfl⟩
        exact ⟨t, rfl⟩
      · rintro ⟨t, ht⟩
        injection ht with h1 h2
        exact ⟨h1.symm, t, h2⟩

theorem pyIn_iff (sub s : Str) : pyIn sub s = true ↔ ∃ pre post, s = pre ++ sub ++ post := by
  induction s with
  | nil =>
    show comecaCom sub [] = true ↔ _
    rw [comecaCom_iff]
    constructor
    · rintro ⟨t, ht⟩
      exact ⟨[], t, ht⟩
    · rintro ⟨pre, post, h⟩
      refine ⟨post, ?_⟩
      cases pre with
      | nil => simpa using h
      | cons x xs => simp at h
  | cons c rest ih =>
    show (comecaCom sub (c :: rest) || pyIn sub rest) = true ↔ _
    rw [Bool.or_eq_true, comecaCom_iff, ih]
    constructor
    · rintro (⟨t, ht⟩ | ⟨pre, post, hp⟩)
      · exact ⟨[], t, by simpa using ht⟩
      · exact ⟨c :: pre, post, by simp [hp]⟩
    · rintro ⟨pre, post, hp⟩
      cases pre with
      | nil => exact Or.inl ⟨post, by simpa using hp⟩
      | cons x xs =>
        right
        injection hp with h1 h2
        exact ⟨xs, post, h2⟩

theorem pyIn_trans {a b c : Str} (h1 : pyIn a b = true) (h2 : pyIn b c = true) :
    pyIn a c = true := by
  rw [pyIn_iff] at h1 h2 ⊢
  obtain ⟨p1, q1, rfl⟩ := h1
  obtain ⟨p2, q2, h⟩ := h2
  exact ⟨p2 ++ p1, q1 ++ q2, by simp [h, List.append_assoc]⟩

/-! ## C8 and C1: the outcome classifier's dead branch -/

/-- C8: for every input string, the decision-outcome classifier never returns
the label "Parcialmente procedente": any string containing the granted-in-part
phrase also contains "procedente", so an earlier branch ("Procedente" or
"Improcedente") always decides first and the dedicated branch is
unreachable. -/
theorem c8_ramo_parcial_inalcancavel (dispositivo : Str) :
    determinarResultadoDecisao dispositivo ≠ "Parcialmente procedente".data := by
  unfold determinarResultadoDecisao
  intro h
  split_ifs at h with h1 h2 h3 h4 h5 h6
  · exact absurd h (by decide)
  · exact absurd h (by decide)
  · have hproc : pyIn ("procedente".data) (pyLower dispositivo) = true :=
      pyIn_trans (by decide) h3
    exact h1 ⟨hproc, h2⟩
  · exact absurd h (by decide)
  · exact absurd h (by decide)
  · exact absurd h (by decide)
  · exact absurd h (by decide)

/-- C1: the source checks `'procedente' in dispositivo_lower` before
`'parcialmente procedente'`, so an operative clause that rules the claim
partially granted is classified as plain "Procedente" — the evaluation of the
embedded classifier at the failing input exhibits the divergence from the
specified behaviour. -/
theorem c1_parcial_classificado_procedente :
    determinarResultadoDecisao ("Julgo parcialmente procedente o pedido inicial.".data)
      = "Procedente".data := by decide

/-! ## C2 and C3: case-number extraction -/

theorem extrair_numero_eq_primeiro (ps : List (Str → Option Str)) (texto : Str) :
    extrair_numero_processo ps texto =
      (primeiroCasamento ps texto).map (fun numero =>
        if (numero.filter Char.isDigit).length = 20 then
          formatCNJ (numero.filter Char.isDigit)
        else numero) := by
  induction ps with
  | nil => rfl
  | cons p rest ih =>
    rcases hp : p texto with _ | numero
    · simpa [extrair_numero_processo, primeiroCasamento, hp] using ih
    · by_cases h20 : (numero.filter Char.isDigit).length = 20 <;>
        simp [extrair_numero_processo, primeiroCasamento, hp, h20]

theorem extrair_numero_none (ps : List (Str → Option Str)) (texto : Str)
    (h : ∀ p ∈ ps, p texto = none) : extrair_numero_processo ps texto = none := by
  induction ps with
  | nil => rfl
  | cons p rest ih =>
    have hp : p texto = none := h p (by simp)
    simp only [extrair_numero_processo, hp]
    exact ih (fun q hq => h q (by simp [hq]))

theorem decompor20 (d : Str) (h : d.length = 20) :
    ∃ c0 c1 c2 c3 c4 c5 c6 c7 c8 c9 c10 c11 c12 c13 c14 c15 c16 c17 c18 c19,
      d = [c0, c1, c2, c3, c4, c5, c6, c7, c8, c9, c10, c11, c12, c13, c14, c15, c16, c17, c18, c19] := by
  match d, h with
  | [c0, c1, c2, c3, c4, c5, c6, c7, c8, c9, c10, c11, c12, c13, c14, c15, c16, c17, c18, c19], _ =>
    exact ⟨c0, c1, c2, c3, c4, c5, c6, c7, c8, c9, c10, c11, c12, c13, c14, c15, c16, c17, c18, c19, rfl⟩

theorem formatCNJ_props (d : Str) (hlen : d.length = 20)
    (hdig : ∀ c ∈ d, c.isDigit = true) :
    isCNJFormat (formatCNJ d) = true ∧ (formatCNJ d).filter Char.isDigit = d := by
  obtain ⟨c0, c1, c2, c3, c4, c5, c6, c7, c8, c9, c10, c11, c12, c13, c14, c15, c16, c17, c18, c19, rfl⟩ := decompor20 d hlen
  have h0 : c0.isDigit = true := hdig c0 (by simp)
  have h1 : c1.isDigit = true := hdig c1 (by simp)
  have h2 : c2.isDigit = true := hdig c2 (by simp)
  have h3 : c3.isDigit = true := hdig c3 (by simp)
  have h4 : c4.isDigit = true := hdig c4 (by simp)
  have h5 : c5.isDigit = true := hdig c5 (by simp)
  have h6 : c6.isDigit = true := hdig c6 (by simp)
  have h7 : c7.isDigit = true := hdig c7 (by simp)
  have h8 : c8.isDigit = true := hdig c8 (by simp)
  have h9 : c9.isDigit = true := hdig c9 (by simp)
  have h10 : c10.isDigit = true := hdig c10 (by simp)
  have h11 : c11.isDigit = true := hdig c11 (by simp)
  have h12 : c12.isDigit = true := hdig c12 (by simp)
  have h13 : c13.isDigit = true := hdig c13 (by simp)
  have h14 : c14.isDigit = true := hdig c14 (by simp)
  have h15 : c15.isDigit = true := hdig c15 (by simp)
  have h16 : c16.isDigit = true := hdig c16 (by simp)
  have h17 : c17.isDigit = true := hdig c17 (by simp)
  have h18 : c18.isDigit = true := hdig c18 (by simp)
  have h19 : c19.isDigit = true := hdig c19 (by simp)
  have hifen : Char.isDigit '-' = false := rfl
  have hponto : Char.isDigit '.' = false := rfl
  constructor
  · show isCNJFormat
      [c0, c1, c2, c3, c4, c5, c6, '-', c7, c8, '.', c9, c10, c11, c12, '.', c13,
       '.', c14, c15, '.', c16, c17, c18, c19] = true
    simp [isCNJFormat, h0, h1, h2, h3, h4, h5, h6, h7, h8, h9, h10, h11, h12, h13, h14, h15, h16, h17, h18, h19]
  · show List.filter Char.isDigit
      [c0, c1, c2, c3, c4, c5, c6, '-', c7, c8, '.', c9, c10, c11, c12, '.', c13,
       '.', c14, c15, '.', c16, c17, c18, c19] = _
    simp [List.filter_cons, h0, h1, h2, h3, h4, h5, h6, h7, h8, h9, h10, h11, h12, h13, h14, h15, h16, h17, h18, h19, hifen, hponto]

/-- C2: whenever a configured case-number pattern matches and the hit stripped
of non-digits has exactly 20 digits, `extrair_numero_processo` returns a
string in the fixed CNJ dot/dash shape whose digits, in order, are exactly the
original 20 digits. -/
theorem c2_normalizacao_cnj (ps : List (Str → Option Str)) (texto m : Str)
    (hm : primeiroCasamento ps texto = some m)
    (h20 : (m.filter Char.isDigit).length = 20) :
    extrair_numero_processo ps texto = some (formatCNJ (m.filter Char.isDigit)) ∧
    isCNJFormat (formatCNJ (m.filter Char.isDigit)) = true ∧
    (formatCNJ (m.filter Char.isDigit)).filter Char.isDigit = m.filter Char.isDigit := by
  have hdig : ∀ c ∈ m.filter Char.isDigit, c.isDigit = true :=
    fun c hc => (List.mem_filter.mp hc).2
  obtain ⟨hf, hd⟩ := formatCNJ_props (m.filter Char.isDigit) h20 hdig
  refine ⟨?_, hf, hd⟩
  rw [extrair_numero_eq_primeiro, hm]
  simp [h20]

/-- Witness for C2 at a concrete input: the fallback pattern matches the
dash/dot-separated 20-digit number inside `textoNumero`. -/
theorem c2_normalizacao_cnj_witness :
    extrair_numero_processo padroesNumeroBasicos textoNumero
        = some (formatCNJ (("1234567-12.2020.1.01.0001".data).filter Char.isDigit)) ∧
    isCNJFormat (formatCNJ (("1234567-12.2020.1.01.0001".data).filter Char.isDigit)) = true ∧
    (formatCNJ (("1234567-12.2020.1.01.0001".data).filter Char.isDigit)).filter Char.isDigit
        = ("1234567-12.2020.1.01.0001".data).filter Char.isDigit :=
  c2_normalizacao_cnj padroesNumeroBasicos textoNumero ("1234567-12.2020.1.01.0001".data)
    (by decide) (by decide)

/-- C3, counterexample: on a text none of the configured case-number patterns
matches, the method `extrair_numero_processo` itself returns `None` (an absent
value), not the "Não identificado" sentinel the claim promises. -/
theorem c3_contraexemplo_none :
    extrair_numero_processo padroesNumeroBasicos textoSemNumero = none ∧
    extrair_numero_processo padroesNumeroBasicos textoSemNumero
        ≠ some ("Não identificado".data) := by
  constructor
  · decide
  · decide

/-- C3 (amended): when no configured case-number pattern matches,
`extrair_numero_processo` returns `None`, and its caller
`extrair_informacoes_processuais` substitutes the sentinel
(`… or "Não identificado"`), so the case-number field of the procedural record
is the sentinel string, never an absent value. -/
theorem c3_sentinela_no_campo (an : Analisador) (texto : Str)
    (h : ∀ p ∈ an.padroes.numero_processo, p texto = none) :
    (extrair_informacoes_processuais an texto).numero_processo
      = "Não identificado".data := by
  have hn : extrair_numero_processo an.padroes.numero_processo texto = none :=
    extrair_numero_none _ _ h
  simp [extrair_informacoes_processuais, hn, pyOrStr]

/-- Witness for C3 (amended) at a concrete input. -/
theorem c3_sentinela_no_campo_witness :
    (extrair_informacoes_processuais analisadorNumero textoSemNumero).numero_processo
      = "Não identificado".data :=
  c3_sentinela_no_campo analisadorNumero textoSemNumero (by
    intro p hp
    have hp' : p ∈ [buscarCNJ] := hp
    rw [List.mem_singleton] at hp'
    subst hp'
    decide)

/-! ## C4: confidence score bounds -/

theorem confNumero_nonneg (i : InformacoesProcessuais) : 0 ≤ confNumero i := by
  unfold confNumero
  split <;> norm_num

theorem confPartes_nonneg (p : PartesProcesso) : 0 ≤ confPartes p := by
  unfold confPartes
  split_ifs <;> norm_num

theorem confTipo_nonneg (i : InformacoesProcessuais) : 0 ≤ confTipo i := by
  unfold confTipo
  split
  · norm_num
  · split <;> norm_num

theorem confOrgao_nonneg (i : InformacoesProcessuais) : 0 ≤ confOrgao i := by
  unfold confOrgao
  split <;> norm_num

theorem confTexto_nonneg (t : Str) : 0 ≤ confTexto t := by
  unfold confTexto
  have h1 : (0 : ℚ) ≤ (contarPalavrasJuridicas t : ℚ) / (palavras_juridicas.length : ℚ) := by
    positivity
  exact mul_nonneg (le_min h1 (by norm_num)) (by norm_num)

theorem confDecisao_nonneg (t : Str) : 0 ≤ confDecisao t := by
  unfold confDecisao
  split <;> norm_num

/-- C4: for every procedural record, party record and input text — the empty
string included — the confidence score of `calcular_confianca_analise` lies in
the closed interval from 0 to 1: the six score components are nonnegative and
the sum is defensively capped at 1.0. -/
theorem c4_confianca_entre_zero_e_um (informacoes : InformacoesProcessuais)
    (partes : PartesProcesso) (texto_completo : Str) :
    0 ≤ calcular_confianca_analise informacoes partes texto_completo ∧
    calcular_confianca_analise informacoes partes texto_completo ≤ 1 := by
  constructor
  · unfold calcular_confianca_analise
    refine le_min ?_ (by norm_num)
    have n1 := confNumero_nonneg informacoes
    have n2 := confPartes_nonneg partes
    have n3 := confTipo_nonneg informacoes
    have n4 := confOrgao_nonneg informacoes
    have n5 := confTexto_nonneg texto_completo
    have n6 := confDecisao_nonneg texto_completo
    linarith
  · unfold calcular_confianca_analise
    exact le_trans (min_le_right _ _) (by norm_num)

/-! ## C5: party-list caps -/

/-- C5: however many hits the party patterns, attorney patterns and named
entities produce, the four returned lists never exceed their caps (5 plaintiffs,
5 defendants, 3 third parties, 10 attorneys): truncation is the last step. -/
theorem c5_limites_listas_partes (an : Analisador) (texto : Str) :
    (extrair_partes_processo an texto).autores.length ≤ 5 ∧
    (extrair_partes_processo an texto).reus.length ≤ 5 ∧
    (extrair_partes_processo an texto).terceiros.length ≤ 3 ∧
    (extrair_partes_processo an texto).advogados.length ≤ 10 := by
  dsimp only [extrair_partes_processo]
  refine ⟨?_, ?_, ?_, ?_⟩ <;> simp [List.length_take]

/-! ## C6: absent decision, never a partial record -/

/-- C6: when neither operative-clause pattern yields a non-empty capture
(no match at all, or an empty `group(1)`), `analisar_decisao` returns nothing
at all — no partially filled decision record. -/
theorem c6_sem_dispositivo_sem_registro (an : Analisador) (texto : Str)
    (h1 : an.re.disp1 texto = none ∨ an.re.disp1 texto = some [])
    (h2 : an.re.disp2 texto = none ∨ an.re.disp2 texto = some []) :
    analisar_decisao an texto = none := by
  have hd : primeiroDispositivo an.re texto = [] := by
    rcases h1 with h1 | h1 <;> rcases h2 with h2 | h2 <;>
      simp [primeiroDispositivo, h1, h2]
  simp [analisar_decisao, hd]

/-- Witness for C6 at a concrete input: the silent engine matches nothing. -/
theorem c6_sem_dispositivo_sem_registro_witness :
    analisar_decisao analisadorBase [] = none :=
  c6_sem_dispositivo_sem_registro analisadorBase [] (Or.inl rfl) (Or.inl rfl)

/-! ## C7: rationale-summary length -/

theorem pyStrip_length_le (s : Str) : (pyStrip s).length ≤ s.length := by
  have h1 : ∀ l : Str, (l.dropWhile espacoPy).length ≤ l.length :=
    fun l => (List.dropWhile_sublist _).length_le
  calc (pyStrip s).length
      = ((s.dropWhile espacoPy).reverse.dropWhile espacoPy).length := by
        simp [pyStrip]
    _ ≤ (s.dropWhile espacoPy).reverse.length := h1 _
    _ = (s.dropWhile espacoPy).length := by simp
    _ ≤ s.length := h1 _

theorem fundSemantica_le_303 (an : Analisador) (texto : Str) :
    (extrairFundamentacaoSemantica an texto).length ≤ 303 := by
  simp only [extrairFundamentacaoSemantica]
  split
  · decide
  · split
    · decide
    · split
      · decide
      · split
        · next h =>
          simp only [List.length_append, List.length_take, List.length_cons,
            List.length_nil]
          omega
        · next h => omega

theorem fundResumida_le_303 (an : Analisador) (texto : Str) :
    (extrairFundamentacaoResumida an texto).length ≤ 303 := by
  unfold extrairFundamentacaoResumida
  rcases hm : primeiroAlgum [an.re.fund1 texto, an.re.fund2 texto] with _ | f <;>
    simp only [hm]
  · exact fundSemantica_le_303 an texto
  · split_ifs with h
    · simp only [List.length_append, List.length_take, List.length_cons,
        List.length_nil]
      omega
    · have h2 := pyStrip_length_le f
      omega

set_option maxRecDepth 100000 in
/-- C7, counterexample: on an input whose rationale capture has 400
characters, the decision record's rationale summary has 303 characters
(the 300-character cut plus the three-character ellipsis), exceeding the
claimed 300-character cap. -/
theorem c7_contraexemplo_303 :
    (analisar_decisao analisadorFundLonga textoFundLonga).map
        (fun d => d.fundamentacao_resumida.length) = some 303 ∧ ¬(303 ≤ 300) :=
  ⟨by decide, by decide⟩

/-- C7 (amended): the rationale summary of every decision record produced by
`analisar_decisao` — regex families and semantic fallback alike — is at most
303 characters long: at most 300 characters of source text plus the
three-character ellipsis appended when truncating. -/
theorem c7_fundamentacao_max_303 (an : Analisador) (texto : Str) (d : DecisaoJudicial)
    (h : analisar_decisao an texto = some d) :
    d.fundamentacao_resumida.length ≤ 303 := by
  simp only [analisar_decisao] at h
  split at h
  · simp at h
  · simp only [Option.some.injEq] at h
    subst h
    exact fundResumida_le_303 an texto

set_option maxRecDepth 100000 in
/-- Witness for C7 (amended) at a concrete input. -/
theorem c7_fundamentacao_max_303_witness :
    decisaoFundLonga.fundamentacao_resumida.length ≤ 303 :=
  c7_fundamentacao_max_303 analisadorFundLonga textoFundLonga decisaoFundLonga (by decide)

/-! ## C9: duplicate suppression in the role lists -/

theorem nodup_mais_um {l : List Str} {a : Str} (h : l.Nodup) (ha : a ∉ l) :
    (l ++ [a]).Nodup := by
  rw [List.nodup_append]
  refine ⟨h, List.nodup_singleton a, fun x hx hx' => ?_⟩
  rw [List.mem_singleton] at hx'
  subst hx'
  exact ha hx

theorem passoPartes_nodup (m : PartesMatch) (st : TresListas)
    (h1 : st.autores.Nodup) (h2 : st.reus.Nodup) (h3 : st.terceiros.Nodup) :
    (passoPartes m st).autores.Nodup ∧ (passoPartes m st).reus.Nodup ∧
      (passoPartes m st).terceiros.Nodup := by
  unfold passoPartes
  rcases hg : m.g1 with _ | g1
  · simp only [hg]
    exact ⟨h1, h2, h3⟩
  · simp only [hg]
    split_ifs <;>
      first
        | exact ⟨h1, h2, h3⟩
        | exact ⟨nodup_mais_um h1 (by assumption), h2, h3⟩
        | exact ⟨h1, nodup_mais_um h2 (by assumption), h3⟩
        | exact ⟨h1, h2, nodup_mais_um h3 (by assumption)⟩

theorem classificarPartes_nodup (ms : List PartesMatch) (st : TresListas)
    (h1 : st.autores.Nodup) (h2 : st.reus.Nodup) (h3 : st.terceiros.Nodup) :
    (classificarPartes ms st).autores.Nodup ∧ (classificarPartes ms st).reus.Nodup ∧
      (classificarPartes ms st).terceiros.Nodup := by
  induction ms generalizing st with
  | nil => exact ⟨h1, h2, h3⟩
  | cons m rest ih =>
    obtain ⟨g1, g2, g3⟩ := passoPartes_nodup m st h1 h2 h3
    exact ih (passoPartes m st) g1 g2 g3

theorem nerPasso_nodup (adv : List Str) (e : NEnt) (st : TresListas)
    (h1 : st.autores.Nodup) (h2 : st.reus.Nodup) (h3 : st.terceiros.Nodup) :
    (nerPasso adv e st).autores.Nodup ∧ (nerPasso adv e st).reus.Nodup ∧
      (nerPasso adv e st).terceiros.Nodup := by
  simp only [nerPasso]
  split_ifs with c1 c2 c3 c4 <;>
    first
      | exact ⟨h1, h2, h3⟩
      | exact ⟨nodup_mais_um h1 c2.1, h2, h3⟩
      | exact ⟨h1, nodup_mais_um h2 c2.2.1, h3⟩

theorem nerLoop_nodup (adv : List Str) (es : List NEnt) (st : TresListas)
    (h1 : st.autores.Nodup) (h2 : st.reus.Nodup) (h3 : st.terceiros.Nodup) :
    (nerLoop adv es st).autores.Nodup ∧ (nerLoop adv es st).reus.Nodup ∧
      (nerLoop adv es st).terceiros.Nodup := by
  induction es generalizing st with
  | nil => exact ⟨h1, h2, h3⟩
  | cons e rest ih =>
    obtain ⟨g1, g2, g3⟩ := nerPasso_nodup adv e st h1 h2 h3
    exact ih (nerPasso adv e st) g1 g2 g3

set_option maxRecDepth 100000 in
/-- C9, counterexample: the role-list duplicate suppression is an exact,
case-sensitive comparison (`parte not in autores`), so two captured names that
differ only in letter case are both kept — the plaintiffs list returned on the
fixture contains two names that are equal once case is ignored. -/
theorem c9_contraexemplo_caso :
    (extrair_partes_processo analisadorPartesCaso textoPartesCaso).autores
        = ["Ana Maria Souza".data, "ANA MARIA SOUZA".data] ∧
    ¬ ((extrair_partes_processo analisadorPartesCaso textoPartesCaso).autores.map
          pyLower).Nodup :=
  ⟨by decide, by decide⟩

/-- C9 (amended): duplicate suppression in the plaintiff, defendant and
third-party lists returned by the party extractor is exact (case-sensitive):
no returned role list contains the same string twice, though names differing
only in letter case may both appear. -/
theorem c9_sem_duplicatas_exatas (an : Analisador) (texto : Str) :
    (extrair_partes_processo an texto).autores.Nodup ∧
    (extrair_partes_processo an texto).reus.Nodup ∧
    (extrair_partes_processo an texto).terceiros.Nodup := by
  dsimp only [extrair_partes_processo]
  obtain ⟨ha, hr, ht⟩ :=
    nerLoop_nodup
      (coletarAdvogados
        ((an.padroes.advogados_procuradores.map (fun p => p texto)).flatten) [])
      (an.nlp (texto.take 50000)).ents
      (classificarPartes ((an.padroes.partes_processo.map (fun p => p texto)).flatten)
        ⟨[], [], []⟩)
      (classificarPartes_nodup _ _ List.nodup_nil List.nodup_nil List.nodup_nil).1
      (classificarPartes_nodup _ _ List.nodup_nil List.nodup_nil List.nodup_nil).2.1
      (classificarPartes_nodup _ _ List.nodup_nil List.nodup_nil List.nodup_nil).2.2
  exact ⟨(List.take_sublist _ _).nodup ha, (List.take_sublist _ _).nodup hr,
    (List.take_sublist _ _).nodup ht⟩

/-! ## C10: determinism of the full pipeline -/

/-- C10: running the complete analysis twice on the same input with the
analyzer state threaded through yields the same structured record both times
and leaves the analyzer state unchanged: every stage only reads the pattern
store and model oracles, so the embedding is a pure function of
(analyzer, text). -/
theorem c10_analise_deterministica (an : Analisador) (texto : Str) :
    (runAnalise (runAnalise an texto).2 texto).1 = (runAnalise an texto).1 ∧
    (runAnalise (runAnalise an texto).2 texto).2 = (runAnalise an texto).2 :=
  ⟨rfl, rfl⟩

/-- Witness for C8 at a concrete input containing the granted-in-part
phrase. -/
theorem c8_ramo_parcial_inalcancavel_witness :
    determinarResultadoDecisao ("julgo parcialmente procedente o pedido.".data)
      ≠ "Parcialmente procedente".data :=
  c8_ramo_parcial_inalcancavel ("julgo parcialmente procedente o pedido.".data)
